import Mathlib

/-!
Verification of the `users` REST controller
(`src/controllers/UserController.ts`).

The controller binds ten HTTP routes; each handler is a one-line
pass-through: it invokes one method of the data-access object
(`UserDao`), and on successful resolution serializes the resolved
value as the JSON response body (`res.json`).  We embed the handler
bodies as small programs over an abstract DAO, interpret them against
an arbitrary (stateful, fallible) DAO, and prove trace properties.
The DAO itself is not part of this repository's sources; where a claim
depends on store semantics we model the store from the specification.
-/

/-- JSON-like values, the currency of request bodies and responses. -/
inductive Json where
  | null : Json
  | bool (b : Bool) : Json
  | num (n : Int) : Json
  | str (s : String) : Json
  | arr (xs : List Json) : Json
  | obj (fields : List (String × Json)) : Json

/-- An incoming HTTP request as the handlers see it: the Express path
parameters (`req.params.userid`, `req.params.username`,
`req.params.type`, `req.params.rid`) and the parsed JSON body
(`req.body`). -/
structure Req where
  useridParam : String
  usernameParam : String
  typeParam : String
  ridParam : String
  body : Json

/-- The ten `UserDao` methods the controller invokes, with the
arguments the handlers pass (`UserController.ts`, lines 64-171). -/
inductive DaoCall where
  | findAllUsers : DaoCall
  | findUserById (userid : String) : DaoCall
  | createUser (body : Json) : DaoCall
  | updateUser (userid : String) (body : Json) : DaoCall
  | deleteUser (userid : String) : DaoCall
  | deleteAllUsers : DaoCall
  | deleteUsersByUsername (username : String) : DaoCall
  | findUsersByType (utype : String) : DaoCall
  | findUsersByRestaurant (rid : String) : DaoCall
  | deleteUsersByRestaurant (rid : String) : DaoCall

/-- A handler body: a sequence of awaited DAO calls (`dao.m(...).then`)
and response writes (`res.json(v)`). -/
inductive Prog where
  | call (c : DaoCall) (k : Json → Prog) : Prog
  | write (v : Json) (k : Prog) : Prog
  | done : Prog

/-- One response write.  `res.json(v)` sends the serialized value with
the default HTTP status 200 (no handler ever sets a status). -/
structure Resp where
  status : Nat
  body : Json

/-- The observable trace of one handler execution: the DAO calls made
in order, the response writes made in order, and whether the handler's
promise resolved or rejected (with the rejection value). -/
structure Run where
  calls : List DaoCall
  writes : List Resp
  result : Except String Unit

/-- Interpret a handler body against a DAO.  The DAO is an arbitrary
stateful, fallible collaborator: on each call it returns either a
resolved value or a rejection, plus its next state.  A rejection stops
the handler (nothing in the controller catches it) and propagates as
the run's result. -/
def runProg {σ : Type} (dao : DaoCall → σ → Except String Json × σ) :
    Prog → σ → Run × σ
  | .call c k, s =>
    match dao c s with
    | (.ok v, s₁) =>
      let (r, s₂) := runProg dao (k v) s₁
      (⟨c :: r.calls, r.writes, r.result⟩, s₂)
    | (.error e, s₁) => (⟨[c], [], .error e⟩, s₁)
  | .write v k, s =>
    let (r, s₁) := runProg dao k s
    (⟨r.calls, ⟨200, v⟩ :: r.writes, r.result⟩, s₁)
  | .done, s => (⟨[], [], .ok ()⟩, s)

/-- Names of the controller's ten handler methods. -/
inductive HandlerName where
  | findAllUsers | findUserById | createUser | updateUser | deleteUser
  | deleteAllUsers | deleteUsersByUsername | findUsersByType
  | findUsersByRestaurant | deleteUsersByRestaurant
deriving DecidableEq, Repr

/-- The DAO call each handler makes, with the path parameters and/or
request body it passes, exactly as in the source
(e.g. `UserController.userDao.findUserById(req.params.userid)`). -/
def daoCallOf : HandlerName → Req → DaoCall
  | .findAllUsers, _ => .findAllUsers
  | .findUserById, req => .findUserById req.useridParam
  | .createUser, req => .createUser req.body
  | .updateUser, req => .updateUser req.useridParam req.body
  | .deleteUser, req => .deleteUser req.useridParam
  | .deleteAllUsers, _ => .deleteAllUsers
  | .deleteUsersByUsername, req => .deleteUsersByUsername req.usernameParam
  | .findUsersByType, req => .findUsersByType req.typeParam
  | .findUsersByRestaurant, req => .findUsersByRestaurant req.ridParam
  | .deleteUsersByRestaurant, req => .deleteUsersByRestaurant req.ridParam

/-- Each handler body, embedded from `UserController.ts`: one DAO call,
then one `res.json` of the resolved value
(`dao.m(args).then(x => res.json(x))`). -/
def handlerBody (h : HandlerName) (req : Req) : Prog :=
  .call (daoCallOf h req) (fun v => .write v .done)

/-- HTTP methods used by the controller. -/
inductive Method where
  | get | post | put | delete
deriving DecidableEq, Repr

/-- One route binding: method, Express path pattern, handler. -/
structure Route where
  method : Method
  path : String
  handler : HandlerName
deriving DecidableEq, Repr

/-- The ten route bindings `getInstance` performs, in source order
(`UserController.ts`, lines 43-52). -/
def controllerRoutes : List Route :=
  [ ⟨.get, "/api/users", .findAllUsers⟩
  , ⟨.get, "/api/users/:userid", .findUserById⟩
  , ⟨.post, "/api/users", .createUser⟩
  , ⟨.put, "/api/users/:userid", .updateUser⟩
  , ⟨.delete, "/api/users/:userid", .deleteUser⟩
  , ⟨.delete, "/api/users", .deleteAllUsers⟩
  , ⟨.delete, "/api/users/username/:username/delete", .deleteUsersByUsername⟩
  , ⟨.get, "/api/users/type/:type", .findUsersByType⟩
  , ⟨.get, "/api/users/business/:rid", .findUsersByRestaurant⟩
  , ⟨.delete, "/api/users/business/:rid", .deleteUsersByRestaurant⟩ ]

/-- An Express application, abstracted to its list of registered
routes in registration order. -/
structure App where
  routes : List Route
deriving DecidableEq, Repr

/-- The controller class's static state: the singleton field
`UserController.userController` (`none` = uninitialized), plus an
allocation counter so distinct `new UserController()` instances are
distinguishable.  An instance is identified by the counter value at
its construction. -/
structure CtrlStatics where
  userController : Option Nat
  nextInstance : Nat
deriving DecidableEq, Repr

/-- `UserController.getInstance(app)`: if the singleton field is null,
construct the instance, register the ten routes on `app`, and store
it; in every case return the stored instance.  Returns the new static
state, the (possibly extended) app, and the returned instance. -/
def getInstance (st : CtrlStatics) (app : App) : CtrlStatics × App × Nat :=
  match st.userController with
  | none =>
    let inst := st.nextInstance
    (⟨some inst, inst + 1⟩, ⟨app.routes ++ controllerRoutes⟩, inst)
  | some inst => (st, app, inst)

/-- The store's persistent state.  Modelled from the spec: `UserDao`
is an external collaborator not present in this repository's sources
(§3, §6).  A record is the assigned string id together with the JSON
object fields it was created or last updated with; `nextId` is the
store's identity-assignment counter (the store has sole authority over
identity assignment, §3). -/
structure Store where
  users : List (String × List (String × Json))
  nextId : Nat

/-- A stored record serialized as the store reports it: its fields
plus the assigned `id` (§8: `{id:42, username:"bob", type:"standard"}`). -/
def recordJson (r : String × List (String × Json)) : Json :=
  .obj (("id", .str r.1) :: r.2)

/-- The object fields of a JSON body (a non-object body contributes
no fields). -/
def fieldsOf : Json → List (String × Json)
  | .obj fs => fs
  | _ => []

/-- Whether a field list binds key `k` to the string `v`. -/
def hasStrField (fs : List (String × Json)) (k v : String) : Bool :=
  match fs.find? (fun p => p.1 == k) with
  | some (_, .str u) => u == v
  | _ => false

/-- Modelled from the spec: the `UserDao` collaborator interface of §6
(`findAll`, `findById`, `create`, `update`, `deleteById`, `deleteAll`,
`deleteByUsername`, `findByType`, `findByRestaurant`,
`deleteByRestaurant`), with `StatusResult` an opaque count object,
`findById` reporting "not found" as null (§4.1), and `create`
assigning a fresh id and returning the created record (§8). -/
def specDao : DaoCall → Store → Except String Json × Store
  | .findAllUsers, s => (.ok (.arr (s.users.map recordJson)), s)
  | .findUserById uid, s =>
    (.ok (match s.users.find? (fun r => r.1 == uid) with
          | some r => recordJson r
          | none => .null), s)
  | .createUser body, s =>
    let uid := toString s.nextId
    let fs := fieldsOf body
    (.ok (recordJson (uid, fs)), ⟨s.users ++ [(uid, fs)], s.nextId + 1⟩)
  | .updateUser uid body, s =>
    (.ok (.obj [("modifiedCount",
        .num ((s.users.filter (fun r => r.1 == uid)).length))]),
     ⟨s.users.map (fun r => if r.1 == uid then (r.1, fieldsOf body) else r),
      s.nextId⟩)
  | .deleteUser uid, s =>
    (.ok (.obj [("deletedCount",
        .num ((s.users.filter (fun r => r.1 == uid)).length))]),
     ⟨s.users.filter (fun r => !(r.1 == uid)), s.nextId⟩)
  | .deleteAllUsers, s =>
    (.ok (.obj [("deletedCount", .num s.users.length)]), ⟨[], s.nextId⟩)
  | .deleteUsersByUsername name, s =>
    (.ok (.obj [("deletedCount",
        .num ((s.users.filter (fun r => hasStrField r.2 "username" name)).length))]),
     ⟨s.users.filter (fun r => !(hasStrField r.2 "username" name)), s.nextId⟩)
  | .findUsersByType t, s =>
    (.ok (.arr ((s.users.filter (fun r => hasStrField r.2 "type" t)).map recordJson)), s)
  | .findUsersByRestaurant rid, s =>
    (.ok (.arr ((s.users.filter (fun r => hasStrField r.2 "restaurant" rid)).map recordJson)), s)
  | .deleteUsersByRestaurant rid, s =>
    (.ok (.obj [("deletedCount",
        .num ((s.users.filter (fun r => hasStrField r.2 "restaurant" rid)).length))]),
     ⟨s.users.filter (fun r => !(hasStrField r.2 "restaurant" rid)), s.nextId⟩)

/-- A concrete request used to instantiate universally quantified
theorems at a specific input. -/
def sampleReq : Req :=
  ⟨"42", "bob", "standard", "7", .obj [("username", .str "bob")]⟩

/-- A concrete stateless DAO that resolves every call with null. -/
def okNullDao : DaoCall → Unit → Except String Json × Unit :=
  fun _ s => (.ok .null, s)

/-- A concrete stateless DAO that rejects every call. -/
def failingDao : DaoCall → Unit → Except String Json × Unit :=
  fun _ s => (.error "connection error", s)

/-- C1: every handler makes exactly one store call, passing only its
designated path parameter(s) and/or request body unmodified, and on
successful resolution performs exactly one response write, whose body
is exactly the resolved value. -/
theorem handler_single_call_single_write {σ : Type}
    (h : HandlerName) (req : Req)
    (dao : DaoCall → σ → Except String Json × σ) (s s₁ : σ) (v : Json)
    (hok : dao (daoCallOf h req) s = (.ok v, s₁)) :
    runProg dao (handlerBody h req) s =
      (⟨[daoCallOf h req], [⟨200, v⟩], .ok ()⟩, s₁) := by
  simp [handlerBody, runProg, hok]

/-- Witness for C1: the get-by-id handler run against a concrete DAO. -/
theorem handler_single_call_single_write_witness :
    runProg okNullDao (handlerBody .findUserById sampleReq) () =
      (⟨[.findUserById "42"], [⟨200, .null⟩], .ok ()⟩, ()) :=
  handler_single_call_single_write .findUserById sampleReq okNullDao () () .null rfl

/-- C3: if the store call rejects, the handler catches nothing and
writes no response: the run records the one store call, zero response
writes, and the rejection propagating out. -/
theorem handler_propagates_rejection {σ : Type}
    (h : HandlerName) (req : Req)
    (dao : DaoCall → σ → Except String Json × σ) (s s₁ : σ) (e : String)
    (herr : dao (daoCallOf h req) s = (.error e, s₁)) :
    runProg dao (handlerBody h req) s =
      (⟨[daoCallOf h req], [], .error e⟩, s₁) := by
  simp [handlerBody, runProg, herr]

/-- Witness for C3: the delete-all handler against a rejecting DAO. -/
theorem handler_propagates_rejection_witness :
    runProg failingDao (handlerBody .deleteAllUsers sampleReq) () =
      (⟨[.deleteAllUsers], [], .error "connection error"⟩, ()) :=
  handler_propagates_rejection .deleteAllUsers sampleReq failingDao () ()
    "connection error" rfl

/-- C4: the get-by-id handler responds with exactly the value the
store's findById resolves for the request's id — whatever that value
is, including the store's null "not found" result. -/
theorem findUserById_returns_store_value {σ : Type}
    (req : Req) (dao : DaoCall → σ → Except String Json × σ)
    (s s₁ : σ) (v : Json)
    (hok : dao (.findUserById req.useridParam) s = (.ok v, s₁)) :
    runProg dao (handlerBody .findUserById req) s =
      (⟨[.findUserById req.useridParam], [⟨200, v⟩], .ok ()⟩, s₁) := by
  simp [handlerBody, daoCallOf, runProg, hok]

/-- Witness for C4: a DAO whose findById resolves null is serialized
as-is in a success response. -/
theorem findUserById_returns_store_value_witness :
    runProg okNullDao (handlerBody .findUserById sampleReq) () =
      (⟨[.findUserById sampleReq.useridParam], [⟨200, .null⟩], .ok ()⟩, ()) :=
  findUserById_returns_store_value sampleReq okNullDao () () .null rfl

/-- C6: every response write any handler ever performs carries HTTP
status 200 (the `res.json` default; no handler sets a status). -/
theorem handler_writes_status_200 {σ : Type}
    (h : HandlerName) (req : Req)
    (dao : DaoCall → σ → Except String Json × σ) (s : σ) :
    ((runProg dao (handlerBody h req) s).1.writes.all
      (fun w => w.status == 200)) = true := by
  rcases hd : dao (daoCallOf h req) s with ⟨v | e, s₁⟩ <;>
    simp [handlerBody, runProg, hd]

/-- C2: the first getInstance call constructs the controller and
appends exactly the ten routes (each occurring once — the route list
is duplicate-free) to the given app; with the singleton field now set,
any subsequent call registers nothing on the app it is given and
returns the instance constructed by the first call. -/
theorem getInstance_idempotent (app app₂ : App) (n : Nat) :
    getInstance ⟨none, n⟩ app =
      (⟨some n, n + 1⟩, ⟨app.routes ++ controllerRoutes⟩, n) ∧
    (controllerRoutes.all (fun r => controllerRoutes.count r == 1)) = true ∧
    getInstance ⟨some n, n + 1⟩ app₂ = (⟨some n, n + 1⟩, app₂, n) := by
  refine ⟨by simp [getInstance], by decide, by simp [getInstance]⟩

/-- C10: after the first initialization, getInstance ignores its app
argument — a second call with a different app returns that app
unchanged (no routes registered on it) along with the statics and
instance produced by the first call. -/
theorem getInstance_ignores_second_app (app₁ app₂ : App) (n : Nat) :
    getInstance (getInstance ⟨none, n⟩ app₁).1 app₂ =
      ((getInstance ⟨none, n⟩ app₁).1, app₂, (getInstance ⟨none, n⟩ app₁).2.2) := by
  simp [getInstance]

/-- The HTTP surface table of the specification (§6), as written:
all paths directly under a `/users` resource root, path parameters in
`{name}` form. -/
def specSurfaceTable : List (Method × String) :=
  [ (.get, "/users")
  , (.get, "/users/{id}")
  , (.post, "/users")
  , (.put, "/users/{id}")
  , (.delete, "/users/{id}")
  , (.delete, "/users")
  , (.delete, "/users/username/{username}/delete")
  , (.get, "/users/type/{type}")
  , (.get, "/users/business/{rid}")
  , (.delete, "/users/business/{rid}") ]

/-- The spec's §6 surface table with each path parameter rendered in
Express `:name` syntax (`{id}` as `:userid`, `{username}` as
`:username`, `{type}` as `:type`, `{rid}` as `:rid`); still rooted at
`/users` as the table writes it. -/
def specSurfaceTableExpress : List (Method × String) :=
  [ (.get, "/users")
  , (.get, "/users/:userid")
  , (.post, "/users")
  , (.put, "/users/:userid")
  , (.delete, "/users/:userid")
  , (.delete, "/users")
  , (.delete, "/users/username/:username/delete")
  , (.get, "/users/type/:type")
  , (.get, "/users/business/:rid")
  , (.delete, "/users/business/:rid") ]

/-- Counterexample to C5: the registered method/path pairs are not
those of the spec's HTTP surface table — e.g. list-all is registered
at `/api/users`, not `/users` — nor even the table with parameters in
Express syntax. -/
theorem routes_differ_from_spec_table :
    controllerRoutes.map (fun r => (r.method, r.path)) ≠ specSurfaceTable ∧
    controllerRoutes.map (fun r => (r.method, r.path)) ≠ specSurfaceTableExpress := by
  constructor <;> decide

/-- C5 (amended): the ten registered routes match the spec's HTTP
surface table row for row — same order, same methods — except that
every registered path carries an `/api` prefix the table lacks (and
path parameters in Express `:name` syntax). -/
theorem routes_match_spec_table_under_api :
    specSurfaceTableExpress.map (fun e => e.1) =
      specSurfaceTable.map (fun e => e.1) ∧
    controllerRoutes.map (fun r => (r.method, r.path)) =
      specSurfaceTableExpress.map (fun e => (e.1, "/api" ++ e.2)) := by
  constructor <;> decide

/-- `find?` skips a prefix on which the predicate is everywhere false. -/
lemma find_append_of_forall_neg {α : Type} (p : α → Bool) (l₁ l₂ : List α)
    (h : ∀ x ∈ l₁, p x = false) : (l₁ ++ l₂).find? p = l₂.find? p := by
  have hl : l₁.find? p = none :=
    List.find?_eq_none.mpr (fun x hx => by simp [h x hx])
  simp [List.find?_append, hl]

/-- C7: from any store state, delete-all followed by list-all (no
interleaving mutations) responds to the list-all request with the
empty JSON array. -/
theorem deleteAll_then_findAll_empty (s : Store) (req₁ req₂ : Req) :
    (runProg specDao (handlerBody .findAllUsers req₂)
      (runProg specDao (handlerBody .deleteAllUsers req₁) s).2).1.writes =
      [⟨200, .arr []⟩] := by
  simp [handlerBody, daoCallOf, runProg, specDao]

/-- C8: creating a user with object body `fs` responds with the record
made of `fs` plus the store-assigned fresh id, and a subsequent
get-by-id using that returned id responds with the same record
(create/get round-trip; the freshness hypothesis is the store's
identity-uniqueness invariant). -/
theorem create_then_get_roundtrip (s : Store) (fs : List (String × Json))
    (req req₂ : Req) (hbody : req.body = .obj fs)
    (hid : req₂.useridParam = toString s.nextId)
    (hfresh : ∀ r ∈ s.users, (r.1 == toString s.nextId) = false) :
    (runProg specDao (handlerBody .createUser req) s).1.writes =
      [⟨200, .obj (("id", .str (toString s.nextId)) :: fs)⟩] ∧
    (runProg specDao (handlerBody .findUserById req₂)
        (runProg specDao (handlerBody .createUser req) s).2).1.writes =
      [⟨200, .obj (("id", .str (toString s.nextId)) :: fs)⟩] := by
  have hfind : ((s.users ++ [(toString s.nextId, fs)]).find?
      (fun r => r.1 == toString s.nextId)) = some (toString s.nextId, fs) := by
    rw [find_append_of_forall_neg _ _ _ hfresh]
    simp [List.find?]
  constructor
  · simp [handlerBody, daoCallOf, runProg, specDao, hbody, recordJson, fieldsOf]
  · simp [handlerBody, daoCallOf, runProg, specDao, hbody, recordJson, fieldsOf,
      hid, hfind]

/-- Empty store with identity counter at 0. -/
def store0 : Store := ⟨[], 0⟩

/-- A concrete create request: body `{username:"bob", type:"standard"}`. -/
def createReq : Req :=
  ⟨"", "", "", "", .obj [("username", .str "bob"), ("type", .str "standard")]⟩

/-- A concrete follow-up get request using the id assigned by
`store0`'s create. -/
def getReq0 : Req := ⟨"0", "", "", "", .null⟩

/-- Witness for C8: create `{username:"bob", type:"standard"}` on the
empty store, then get id "0": both respond with the record plus id. -/
theorem create_then_get_roundtrip_witness :
    (runProg specDao (handlerBody .createUser createReq) store0).1.writes =
      [⟨200, .obj [("id", .str "0"), ("username", .str "bob"),
        ("type", .str "standard")]⟩] ∧
    (runProg specDao (handlerBody .findUserById getReq0)
        (runProg specDao (handlerBody .createUser createReq) store0).2).1.writes =
      [⟨200, .obj [("id", .str "0"), ("username", .str "bob"),
        ("type", .str "standard")]⟩] :=
  create_then_get_roundtrip store0
    [("username", .str "bob"), ("type", .str "standard")] createReq getReq0
    rfl rfl (by simp [store0])

/-- C9: the update handler responds with exactly the store's
update-status (a modified-count object); no response write it ever
performs is a user record (every record the store reports leads with
an `id` field, which the status object lacks). -/
theorem update_returns_status_not_record (req : Req) (s : Store) :
    (runProg specDao (handlerBody .updateUser req) s).1.writes =
      [⟨200, .obj [("modifiedCount",
        .num ((s.users.filter (fun r => r.1 == req.useridParam)).length))]⟩] ∧
    ∀ w ∈ (runProg specDao (handlerBody .updateUser req) s).1.writes,
      ∀ r, w.body ≠ recordJson r := by
  have h1 : (runProg specDao (handlerBody .updateUser req) s).1.writes =
      [⟨200, .obj [("modifiedCount",
        .num ((s.users.filter (fun r => r.1 == req.useridParam)).length))]⟩] := by
    simp [handlerBody, daoCallOf, runProg, specDao]
  refine ⟨h1, ?_⟩
  intro w hw r
  rw [h1] at hw
  simp at hw
  rw [hw]
  simp [recordJson]

/-- A store holding one record with id "42". -/
def store1 : Store := ⟨[("42", [("username", .str "bob")])], 43⟩

/-- A concrete update request for id "42". -/
def updReq : Req := ⟨"42", "", "", "", .obj [("username", .str "alice")]⟩

/-- Witness for C9: updating id "42" in a one-record store responds
with `{modifiedCount: 1}`, which is not the updated record. -/
theorem update_returns_status_not_record_witness :
    (runProg specDao (handlerBody .updateUser updReq) store1).1.writes =
      [⟨200, .obj [("modifiedCount", .num 1)]⟩] ∧
    (⟨200, .obj [("modifiedCount", .num 1)]⟩ : Resp).body ≠
      recordJson ("42", [("username", .str "alice")]) :=
  ⟨(update_returns_status_not_record updReq store1).1,
   (update_returns_status_not_record updReq store1).2
     ⟨200, .obj [("modifiedCount", .num 1)]⟩
     (by rw [(update_returns_status_not_record updReq store1).1]; simp [store1, updReq])
     ("42", [("username", .str "alice")])⟩
